import Mathlib

/-!
# Verification of the Nymeria OAuth session lifecycle core

A shallow embedding, in Lean 4, of the session-lifecycle subsystem of the
Nymeria blogging application:

* `src/lib/security/sanitize.ts` — the input sanitizers;
* `src/lib/auth/utils.ts` — session/device identifier generation;
* `src/lib/security/rate-limit.ts` — the fixed-window rate limiter;
* the `/api/auth/sync`, `/api/auth/activity` and `/api/auth/deactivate`
  route handlers (including the hardened variant of the sync route), over a
  relational-store model of the `users` and `user_sessions` tables from the
  Drizzle schema;
* `src/lib/auth/client.ts` — the client-side `NymeriaAuth` orchestrator
  (`handleCallback`, `restoreSession`, `signOut`), with the identity
  provider, profile fetch and JSON parsing modelled as environment inputs.

JavaScript strings are modelled as lists of Unicode code points (`JStr`);
timestamps (`Date.now()`, `new Date()`) as natural numbers; crypto-random
choices as explicit function arguments; and each `fetch`/database suspension
point as explicit state passing.
-/

namespace Nymeria

/-- JavaScript strings, modelled as lists of Unicode code points. -/
abbrev JStr := List Char

/-! ## JavaScript string primitives used by `sanitize.ts` -/

/-- The characters in the JavaScript `\s` class, which is also the set of
characters removed by `String.prototype.trim`: ASCII whitespace, NBSP, the
Unicode space separators, the line/paragraph separators and the BOM. -/
def wsChars : List Char :=
  ['\t', '\n', '\x0B', '\x0C', '\r', ' ', '\xA0', '\u1680',
   '\u2000', '\u2001', '\u2002', '\u2003', '\u2004', '\u2005', '\u2006',
   '\u2007', '\u2008', '\u2009', '\u200A', '\u2028', '\u2029', '\u202F',
   '\u205F', '\u3000', '\uFEFF']

/-- Whether `c` matches the JavaScript `\s` class. -/
def jsWs (c : Char) : Bool := decide (c ∈ wsChars)

/-- `String.prototype.trim`: drop `\s` characters from both ends. -/
def jsTrim (l : JStr) : JStr :=
  ((l.dropWhile jsWs).reverse.dropWhile jsWs).reverse

/-- The character class `[\x00-\x08\x0B\x0C\x0E-\x1F\x7F]` removed by
`sanitizeText` (`.replace(/[\x00-\x08\x0B\x0C\x0E-\x1F\x7F]/g, "")`). -/
def removedCtrl (c : Char) : Bool :=
  (c.toNat ≤ 0x08) || c == '\x0B' || c == '\x0C' ||
    (0x0E ≤ c.toNat && c.toNat ≤ 0x1F) || c == '\x7F'

/-- Helper for `.replace(/\s+/g, " ")`: the flag records whether the
previous character was part of a whitespace run already emitted as `' '`. -/
def collapseWsAux : Bool → JStr → JStr
  | _, [] => []
  | prevWs, c :: rest =>
    if jsWs c then
      if prevWs then collapseWsAux true rest
      else ' ' :: collapseWsAux true rest
    else c :: collapseWsAux false rest

/-- `.replace(/\s+/g, " ")`: every maximal run of `\s` characters becomes a
single space. -/
def collapseWs (l : JStr) : JStr := collapseWsAux false l

/-- ASCII lower-casing, the effect of `String.prototype.toLowerCase` on the
ASCII repertoire (the only code points the sanitizers' format regexes can
accept). -/
def asciiToLower (c : Char) : Char :=
  if 65 ≤ c.toNat ∧ c.toNat ≤ 90 then Char.ofNat (c.toNat + 32) else c

/-! ## `src/lib/security/sanitize.ts` -/

/-- `sanitizeText`: trim, remove the control characters, collapse whitespace
runs, truncate to 10,000 characters. -/
def sanitizeText (input : JStr) : JStr :=
  (collapseWs ((jsTrim input).filter (fun c => !removedCtrl c))).take 10000

/-- The class `[a-zA-Z0-9._-]` from the DID regex. -/
def didChar (c : Char) : Bool :=
  c.isLower || c.isUpper || c.isDigit || c == '.' || c == '_' || c == '-'

/-- The class `[a-zA-Z0-9.-]` from the handle regex. -/
def handleChar (c : Char) : Bool :=
  c.isLower || c.isUpper || c.isDigit || c == '.' || c == '-'

/-- The class `[a-zA-Z0-9_-]` from the session/device-id regexes. -/
def tokenChar (c : Char) : Bool :=
  c.isLower || c.isUpper || c.isDigit || c == '_' || c == '-'

/-- The test `/^did:(plc|web):[a-zA-Z0-9._-]+$/.test l`. -/
def didPattern (l : JStr) : Bool :=
  ("did:plc:".data.isPrefixOf l || "did:web:".data.isPrefixOf l) &&
    !(l.drop 8).isEmpty && (l.drop 8).all didChar

/-- The test `/^[a-zA-Z0-9.-]+$/.test l`. -/
def handlePattern (l : JStr) : Bool :=
  !l.isEmpty && l.all handleChar

/-- The test `/^sess_[a-zA-Z0-9_-]+$/.test l`. -/
def sessPattern (l : JStr) : Bool :=
  "sess_".data.isPrefixOf l && !(l.drop 5).isEmpty && (l.drop 5).all tokenChar

/-- The test `/^dev_[a-zA-Z0-9_-]+$/.test l`. -/
def devPattern (l : JStr) : Bool :=
  "dev_".data.isPrefixOf l && !(l.drop 4).isEmpty && (l.drop 4).all tokenChar

/-- `sanitizeDid`: trim and lower-case, then require the DID regex and a
maximum length of 500. -/
def sanitizeDid (input : JStr) : Option JStr :=
  let cleaned := (jsTrim input).map asciiToLower
  if !didPattern cleaned then none
  else if cleaned.length > 500 then none
  else some cleaned

/-- `sanitizeHandle`: trim and lower-case, then require the handle regex and
length in `[1, 253]` (the `length === 0` arm is unreachable after the regex,
but is kept as in the source). -/
def sanitizeHandle (input : JStr) : Option JStr :=
  let cleaned := (jsTrim input).map asciiToLower
  if !handlePattern cleaned then none
  else if cleaned.length == 0 || cleaned.length > 253 then none
  else some cleaned

/-- `sanitizeSessionId`: trim (no lower-casing in the source), then require
`/^sess_[a-zA-Z0-9_-]+$/` and a maximum length of 128. -/
def sanitizeSessionId (input : JStr) : Option JStr :=
  let cleaned := jsTrim input
  if !sessPattern cleaned then none
  else if cleaned.length > 128 then none
  else some cleaned

/-- `sanitizeDeviceId`: trim, then require `/^dev_[a-zA-Z0-9_-]+$/` and a
maximum length of 128. -/
def sanitizeDeviceId (input : JStr) : Option JStr :=
  let cleaned := jsTrim input
  if !devPattern cleaned then none
  else if cleaned.length > 128 then none
  else some cleaned

/-- The result of the host `new URL(...)` constructor: the fields
`sanitizeUrl` reads, plus `href` for `url.toString()`. -/
structure JsUrl where
  protocol : JStr
  hostname : JStr
  href : JStr

/-- `sanitizeUrl`, parameterized by the host URL parser (`new URL` throwing
is `none`): require an http/https protocol and a hostname of length in
`(0, 253]`, and return `url.toString()`. -/
def sanitizeUrl (parseUrl : JStr → Option JsUrl) (input : JStr) : Option JStr :=
  match parseUrl input with
  | none => none
  | some u =>
    if !(u.protocol == "http:".data || u.protocol == "https:".data) then none
    else if u.hostname.length == 0 || u.hostname.length > 253 then none
    else some u.href

/-- Following the specification's words for the session-id sanitizer:
lower-case *and* trim, then enforce the `sess_` pattern and the maximum
length of 128. Stated only to compare with the source's `sanitizeSessionId`,
which does not lower-case. -/
def sanitizeSessionIdSpec (input : JStr) : Option JStr :=
  let cleaned := (jsTrim input).map asciiToLower
  if !sessPattern cleaned then none
  else if cleaned.length > 128 then none
  else some cleaned

/-! ## `src/lib/auth/utils.ts` — identifier generation

`customAlphabet("1234567890abcdefghijklmnopqrstuvwxyz", 21)` draws 21
characters from the 36-character alphabet using a cryptographic random
source; the random choices are modelled as an explicit argument `pick`. -/

/-- The nanoid alphabet passed to `customAlphabet`. -/
def idAlphabet : JStr := "1234567890abcdefghijklmnopqrstuvwxyz".data

/-- The 21-character random suffix produced by the configured nanoid
generator, for a given sequence of random draws. -/
def nanoid (pick : Fin 21 → Fin idAlphabet.length) : JStr :=
  List.ofFn fun i => idAlphabet.get (pick i)

/-- `generateSessionId`: `` `sess_${nanoid()}` ``. -/
def generateSessionId (pick : Fin 21 → Fin idAlphabet.length) : JStr :=
  "sess_".data ++ nanoid pick

/-- `generateDeviceId`: `` `dev_${nanoid()}` ``. -/
def generateDeviceId (pick : Fin 21 → Fin idAlphabet.length) : JStr :=
  "dev_".data ++ nanoid pick

/-! ## `src/lib/security/rate-limit.ts` — fixed-window rate limiter

`Date.now()` is passed explicitly as `now`; the private `Map` is an
association list threaded through `check`. -/

/-- A value of the rate limiter's `Map`: `{ count, resetTime }`. -/
structure RateLimitEntry where
  count : Nat
  resetTime : Nat
  deriving Repr, DecidableEq

/-- The rate limiter's in-memory store (`Map<string, RateLimitEntry>`). -/
abbrev RLStore := List (String × RateLimitEntry)

/-- `Map.prototype.get`. -/
def storeGet : RLStore → String → Option RateLimitEntry
  | [], _ => none
  | (k', v) :: rest, k => if k' = k then some v else storeGet rest k

/-- `Map.prototype.set` (replace an existing binding, else add one). -/
def storeSet : RLStore → String → RateLimitEntry → RLStore
  | [], k, v => [(k, v)]
  | (k', v') :: rest, k, v =>
    if k' = k then (k, v) :: rest else (k', v') :: storeSet rest k v

/-- The result of `RateLimiter.check`: `{ allowed, remaining, resetTime }`.
`remaining` is an integer because `limit - count` is plain JS subtraction. -/
structure CheckResult where
  allowed : Bool
  remaining : Int
  resetTime : Nat
  deriving Repr, DecidableEq

/-- `RateLimiter.check(identifier, limit, windowMs)` at time `now`: fresh
window (count 1) if the key is absent or the window has elapsed; denial with
`remaining = 0` once `count >= limit`; otherwise increment and allow. -/
def rateLimiterCheck (store : RLStore) (identifier : String) (limit : Nat)
    (windowMs : Nat) (now : Nat) : CheckResult × RLStore :=
  match storeGet store identifier with
  | none =>
    let resetTime := now + windowMs
    (⟨true, (limit : Int) - 1, resetTime⟩,
      storeSet store identifier ⟨1, resetTime⟩)
  | some entry =>
    if now > entry.resetTime then
      let resetTime := now + windowMs
      (⟨true, (limit : Int) - 1, resetTime⟩,
        storeSet store identifier ⟨1, resetTime⟩)
    else if entry.count ≥ limit then
      (⟨false, 0, entry.resetTime⟩, store)
    else
      let entry' : RateLimitEntry := ⟨entry.count + 1, entry.resetTime⟩
      (⟨true, (limit : Int) - (entry.count + 1), entry'.resetTime⟩,
        storeSet store identifier entry')

/-- A sequence of `check` calls for one identifier at the given times,
returning the list of results and the final store. -/
def checkRun (store : RLStore) (identifier : String) (limit windowMs : Nat) :
    List Nat → List CheckResult × RLStore
  | [] => ([], store)
  | t :: ts =>
    let (r, store') := rateLimiterCheck store identifier limit windowMs t
    let (rs, store'') := checkRun store' identifier limit windowMs ts
    (r :: rs, store'')

/-- The per-endpoint configurations (`RATE_LIMITS`). -/
def RATE_LIMITS_AUTH_SYNC : Nat × Nat := (10, 60 * 1000)

/-! ## The persistence model — `users` and `user_sessions`

Rows carry the columns the auth routes read or write, from the Drizzle
schema: `users` has a unique index on `did`, `user_sessions` a unique index
on `session_id`.  `uuid` primary keys are modelled as `Nat` values chosen by
the store (`freshId` arguments); `timestamp` columns as `Nat`. -/

/-- The `deviceInfo` object of the session metadata. -/
structure DeviceInfo where
  userAgent : Option JStr
  platform : Option JStr
  deriving Repr, DecidableEq

/-- The `metadata` JSON column of `user_sessions` (`SessionMetadata`). -/
structure SessionMetadata where
  deviceInfo : Option DeviceInfo
  deriving Repr, DecidableEq

/-- A row of the `users` table (the columns the sync route touches, plus
`createdAt`/`isActive` and their schema defaults). -/
structure UserRow where
  id : Nat
  did : JStr
  handle : JStr
  displayName : Option JStr
  avatar : Option JStr
  description : Option JStr
  pds : Option JStr
  lastSeenAt : Nat
  isActive : Bool
  createdAt : Nat
  updatedAt : Option Nat
  deriving Repr, DecidableEq

/-- A row of the `user_sessions` table. -/
structure SessionRow where
  id : Nat
  userId : Nat
  sessionId : JStr
  deviceId : Option JStr
  lastActiveAt : Nat
  expiresAt : Option Nat
  metadata : SessionMetadata
  isActive : Bool
  createdAt : Nat
  updatedAt : Option Nat
  deriving Repr, DecidableEq

/-- The database state visible to the auth routes. -/
structure Db where
  users : List UserRow
  sessions : List SessionRow
  deriving Repr, DecidableEq

/-- The request body accepted by the sync route's zod schema (field types
already checked; a type-level parse failure is modelled by `Option SyncBody`
at the route). -/
structure SyncBody where
  did : JStr
  handle : JStr
  displayName : Option JStr
  avatar : Option JStr
  description : Option JStr
  pds : Option JStr
  sessionId : JStr
  deviceId : JStr
  metadata : Option SessionMetadata
  deriving Repr, DecidableEq

/-- The `set` clause of the users upsert's `onConflictDoUpdate`: update the
mutable profile fields, `lastSeenAt` and `updatedAt`; `id`, `did`,
`createdAt` and `isActive` are untouched. -/
def updateUserRow (now : Nat) (d : SyncBody) (r : UserRow) : UserRow :=
  { r with
    handle := d.handle
    displayName := d.displayName
    avatar := d.avatar
    description := d.description
    pds := d.pds
    lastSeenAt := now
    updatedAt := some now }

/-- A fresh `users` row inserted by the sync route: `values(...)` plus the
schema defaults (`createdAt` = CURRENT_TIMESTAMP, `isActive` = true). -/
def newUserRow (freshId now : Nat) (d : SyncBody) : UserRow :=
  { id := freshId
    did := d.did
    handle := d.handle
    displayName := d.displayName
    avatar := d.avatar
    description := d.description
    pds := d.pds
    lastSeenAt := now
    isActive := true
    createdAt := now
    updatedAt := none }

/-- `db.insert(users).values(...).onConflictDoUpdate({ target: users.did,
set: {...} }).returning()`: on a `did` conflict update the mutable fields of
the conflicting row, else append a fresh row; return the affected row. -/
def upsertUser (rows : List UserRow) (freshId now : Nat) (d : SyncBody) :
    List UserRow × UserRow :=
  match rows.find? (fun r => r.did == d.did) with
  | some r =>
    (rows.map fun r' => if r'.did == d.did then updateUserRow now d r' else r',
      updateUserRow now d r)
  | none =>
    let r := newUserRow freshId now d
    (rows ++ [r], r)

/-- A fresh `user_sessions` row inserted by the sync route. -/
def newSessionRow (freshId now userId : Nat) (d : SyncBody) : SessionRow :=
  { id := freshId
    userId := userId
    sessionId := d.sessionId
    deviceId := some d.deviceId
    lastActiveAt := now
    expiresAt := none
    metadata := d.metadata.getD ⟨none⟩
    isActive := true
    createdAt := now
    updatedAt := none }

/-- `db.insert(userSessions).values(...).onConflictDoUpdate({ target:
userSessions.sessionId, set: { lastActiveAt, metadata } })`: on a
`session_id` conflict only `lastActiveAt` and `metadata` are written —
`userId` and `deviceId` are untouched. -/
def upsertSession (rows : List SessionRow) (freshId now userId : Nat)
    (d : SyncBody) : List SessionRow :=
  match rows.find? (fun r => r.sessionId == d.sessionId) with
  | some _ =>
    rows.map fun r =>
      if r.sessionId == d.sessionId then
        { r with lastActiveAt := now, metadata := d.metadata.getD ⟨none⟩ }
      else r
  | none => rows ++ [newSessionRow freshId now userId d]

/-- The shared write path of both sync routes: upsert the user by `did`,
then upsert the session by `session_id` with `userId` resolved from the
returned user row. -/
def syncPersist (db : Db) (userFreshId sessionFreshId now : Nat)
    (d : SyncBody) : Db :=
  let (users', user) := upsertUser db.users userFreshId now d
  let sessions' := upsertSession db.sessions sessionFreshId now user.id d
  ⟨users', sessions'⟩

/-! ## The route handlers

Each handler is a function from the request (body already JSON-decoded;
`none` models a body that fails the schema's type layer) and the database to
a response and the new database.  The response inductives mirror the
`NextResponse.json` calls of each route, one constructor per call site. -/

/-- Responses of the basic `/api/auth/sync` route: `{success:true, user}`
(200) or the catch-all `{error:"Failed to sync user data"}` (500). -/
inductive SyncResponse
  | ok (user : UserRow)
  | serverError
  deriving Repr, DecidableEq

/-- The basic sync route (`src/app/api/auth/sync/route.ts`): `syncSchema`
types `sessionId` as a bare `z.string()` — no format check — so every typed
body reaches the upserts.  A zod type failure lands in the catch-all 500. -/
def syncRoutePOST (db : Db) (body : Option SyncBody)
    (userFreshId sessionFreshId now : Nat) : SyncResponse × Db :=
  match body with
  | none => (.serverError, db)
  | some d =>
    let db' := syncPersist db userFreshId sessionFreshId now d
    let user := (upsertUser db.users userFreshId now d).2
    (.ok user, db')

/-- Responses of the hardened sync route (the variant with rate limiting,
content-type validation and format regexes). -/
inductive HardenedSyncResponse
  | ok (user : UserRow)
  | rateLimited (resetTime : Nat) (remaining : Int)
  | invalidContentType
  | invalidRequestData
  | invalidSessionFormat
  | serverError
  deriving Repr, DecidableEq

/-- The hardened `syncSchema` checks: bounds and format regexes for every
field (zod `.url()` is the host URL validity check, passed in as `urlOk`). -/
def hardenedSyncValidate (urlOk : JStr → Bool) (d : SyncBody) : Bool :=
  (1 ≤ d.did.length && d.did.length ≤ 500 && didPattern d.did) &&
  (1 ≤ d.handle.length && d.handle.length ≤ 253 && handlePattern d.handle) &&
  (match d.displayName with
   | none => true
   | some s => s.length ≤ 64) &&
  (match d.avatar with
   | none => true
   | some s => s.length ≤ 2048 && urlOk s) &&
  (match d.description with
   | none => true
   | some s => s.length ≤ 300) &&
  (match d.pds with
   | none => true
   | some s => s.length ≤ 2048 && urlOk s) &&
  (1 ≤ d.sessionId.length && d.sessionId.length ≤ 128 &&
    !d.sessionId.isEmpty && d.sessionId.all tokenChar) &&
  (1 ≤ d.deviceId.length && d.deviceId.length ≤ 128 &&
    !d.deviceId.isEmpty && d.deviceId.all tokenChar) &&
  (match d.metadata with
   | none => true
   | some m =>
     match m.deviceInfo with
     | none => true
     | some i =>
       (match i.userAgent with | none => true | some s => s.length ≤ 512) &&
       (match i.platform with | none => true | some s => s.length ≤ 64))

/-- The hardened sync route: rate limit by client IP, require a JSON
content type, parse with the hardened schema, require the `sess_` prefix on
`sessionId`, then run the shared upserts. -/
def hardenedSyncPOST (urlOk : JStr → Bool) (store : RLStore)
    (clientIP : String) (ctJson : Bool) (db : Db) (body : Option SyncBody)
    (userFreshId sessionFreshId now : Nat) :
    HardenedSyncResponse × RLStore × Db :=
  let (rl, store') := rateLimiterCheck store clientIP
    RATE_LIMITS_AUTH_SYNC.1 RATE_LIMITS_AUTH_SYNC.2 now
  if !rl.allowed then (.rateLimited rl.resetTime rl.remaining, store', db)
  else if !ctJson then (.invalidContentType, store', db)
  else match body with
  | none => (.invalidRequestData, store', db)
  | some d =>
    if !hardenedSyncValidate urlOk d then (.invalidRequestData, store', db)
    else if !("sess_".data.isPrefixOf d.sessionId) then
      (.invalidSessionFormat, store', db)
    else
      let db' := syncPersist db userFreshId sessionFreshId now d
      let user := (upsertUser db.users userFreshId now d).2
      (.ok user, store', db')

/-- Responses of `/api/auth/activity`: `{success:true}` (200),
`{success:true, warning:"Session not found"}` (200), zod failure (400),
non-JSON content type (400), catch-all (500). -/
inductive ActivityResponse
  | ok
  | okWarning
  | invalidContentType
  | invalidRequestData
  | serverError
  deriving Repr, DecidableEq

/-- The body of `/api/auth/activity`.  `lastActiveAt` is the parsed value
of the ISO datetime string; zod's `.datetime()` well-formedness is reflected
by the `Nat` type. -/
structure ActivityBody where
  sessionId : JStr
  lastActiveAt : Nat
  deriving Repr, DecidableEq

/-- `/api/auth/activity`: validate `sessionId` with
`min(1).max(128).regex(/^sess_[a-zA-Z0-9_-]+$/)`, update `lastActiveAt` and
`updatedAt` on the matching row; a missing row yields the success-plus-
warning response, never an error. -/
def activityPOST (db : Db) (ctJson : Bool) (body : Option ActivityBody)
    (now : Nat) : ActivityResponse × Db :=
  if !ctJson then (.invalidContentType, db)
  else match body with
  | none => (.invalidRequestData, db)
  | some d =>
    if !(1 ≤ d.sessionId.length && d.sessionId.length ≤ 128 &&
        sessPattern d.sessionId) then
      (.invalidRequestData, db)
    else
      match db.sessions.find? (fun r => r.sessionId == d.sessionId) with
      | none => (.okWarning, db)
      | some _ =>
        (.ok,
          { db with
            sessions := db.sessions.map fun r =>
              if r.sessionId == d.sessionId then
                { r with lastActiveAt := d.lastActiveAt, updatedAt := some now }
              else r })

/-- Responses of `/api/auth/deactivate`: `{success:true}` (200),
`{error:"Session not found"}` (404), catch-all (500). -/
inductive DeactivateResponse
  | ok
  | notFound
  | serverError
  deriving Repr, DecidableEq

/-- `/api/auth/deactivate`: `deactivateSchema` types `sessionId` as a bare
`z.string()` — no format check — so every string goes straight to the
`update ... where sessionId` query; no matching row yields the 404,
distinct from the 500. -/
def deactivatePOST (db : Db) (body : Option JStr) (now : Nat) :
    DeactivateResponse × Db :=
  match body with
  | none => (.serverError, db)
  | some sid =>
    match db.sessions.find? (fun r => r.sessionId == sid) with
    | none => (.notFound, db)
    | some _ =>
      (.ok,
        { db with
          sessions := db.sessions.map fun r =>
            if r.sessionId == sid then
              { r with isActive := false, updatedAt := some now }
            else r })

/-! ## The client-side orchestrator (`NymeriaAuth`)

Each `await` on an external capability (the OAuth client, the profile
fetch, `JSON.parse` of the round-tripped `state`, the random generator) is
an input in an environment record; `localStorage`'s remembered DID and the
instance fields `sessionId`/`deviceId` form the client state. -/

/-- The provider-issued `OAuthSession`, opaque to this core: the subject
DID `sub`, an optional `pds` member, and the provider-side account handle,
which the client code never reads. -/
structure OAuthSessionM where
  sub : JStr
  pds : Option JStr
  accountHandle : Option JStr
  deriving Repr, DecidableEq

/-- The profile data returned by `fetchUserProfile` on success. -/
structure UserMetadataM where
  displayName : Option JStr
  avatar : Option JStr
  description : Option JStr
  deriving Repr, DecidableEq

/-- The `AuthState` payload round-tripped through the provider's `state`
parameter (`sessionId` is optional in the interface). -/
structure AuthStateM where
  ident : JStr
  redirect : JStr
  sessionId : Option JStr
  deriving Repr, DecidableEq

/-- The client-held `EnhancedSession` (`handle` is always assigned
`userMetadata?.displayName ?? session.sub` by both constructing sites). -/
structure EnhancedSessionM where
  session : OAuthSessionM
  sessionId : JStr
  deviceId : JStr
  userMetadata : Option UserMetadataM
  sub : JStr
  handle : JStr
  pds : Option JStr
  deriving Repr, DecidableEq

/-- The mutable client context: the `NymeriaAuth` fields `sessionId` and
`deviceId`, plus `localStorage`'s `nymeria-current-did`. -/
structure ClientState where
  sessionId : JStr
  deviceId : JStr
  currentDid : Option JStr
  deriving Repr, DecidableEq

/-- `extractPdsFromSession`: return the session's `pds` member when it is a
string; both fallback arms of the source return `undefined`. -/
def extractPdsFromSession (s : OAuthSessionM) : Option JStr := s.pds

/-- The environment of one `handleCallback` run: the result of
`oauthClient.init()` (`none`: no session), the behavior of `JSON.parse` on
the round-tripped `state` (`none`: parse threw), the outcome of the
best-effort `fetchUserProfile` (which catches its own errors), and the
value `generateSessionId()` would mint. -/
structure CallbackEnv where
  initResult : Option (OAuthSessionM × Option JStr)
  parseAuthState : JStr → Option AuthStateM
  profileResult : Option UserMetadataM
  freshSessionId : JStr

/-- `NymeriaAuth.handleCallback`: `null` when no session results from the
code exchange; otherwise take the session id from the parsed `state` when
available, else mint a fresh one, enrich with the best-effort profile and
PDS extraction, and return the `EnhancedSession` (the database sync catches
its own errors and cannot fail the callback). -/
def handleCallback (st : ClientState) (env : CallbackEnv) :
    Option EnhancedSessionM × ClientState :=
  match env.initResult with
  | none => (none, st)
  | some (sess, stateStr) =>
    let parsedState := stateStr.bind env.parseAuthState
    let sessionId := (parsedState.bind AuthStateM.sessionId).getD
      env.freshSessionId
    let userMetadata := env.profileResult
    let pdsUrl := extractPdsFromSession sess
    let es : EnhancedSessionM :=
      { session := sess
        sessionId := sessionId
        deviceId := st.deviceId
        userMetadata := userMetadata
        sub := sess.sub
        handle := (userMetadata.bind UserMetadataM.displayName).getD sess.sub
        pds := pdsUrl }
    (some es, { st with sessionId := sessionId })

/-- The environment of one `restoreSession` run. -/
structure RestoreEnv where
  restoreResult : Option OAuthSessionM
  profileResult : Option UserMetadataM
  freshSessionId : JStr

/-- `NymeriaAuth.restoreSession`: `null` when the provider cannot restore;
otherwise keep the current session id (minting one only if it is falsy,
i.e. the empty string), enrich, and return the `EnhancedSession`. -/
def restoreSession (st : ClientState) (env : RestoreEnv) :
    Option EnhancedSessionM × ClientState :=
  match env.restoreResult with
  | none => (none, st)
  | some sess =>
    let sessionId := if st.sessionId.isEmpty then env.freshSessionId
      else st.sessionId
    let userMetadata := env.profileResult
    let es : EnhancedSessionM :=
      { session := sess
        sessionId := sessionId
        deviceId := st.deviceId
        userMetadata := userMetadata
        sub := sess.sub
        handle := (userMetadata.bind UserMetadataM.displayName).getD sess.sub
        pds := extractPdsFromSession sess }
    (some es, { st with sessionId := sessionId })

/-- The environment of one `signOut` run: whether `oauthClient.revoke`
throws, whether the deactivate `fetch` throws (that failure is caught
inside `deactivateSession` and never escapes), and the replacement id
`generateSessionId()` would mint. -/
structure SignOutEnv where
  revokeThrows : Bool
  deactivateFetchThrows : Bool
  freshSessionId : JStr

/-- Which of `signOut`'s effects happened in a run. -/
structure SignOutTrace where
  deactivateAttempted : Bool
  clearedLocalIdentity : Bool
  mintedNewSessionId : Bool
  deriving Repr, DecidableEq

/-- `NymeriaAuth.signOut`: the body is one `try` block — revoke, then the
deactivate request (whose own failures are caught internally), then clear
`nymeria-current-did`, then mint a replacement session id; the `catch` arm
only clears `nymeria-current-did`.  A throwing `revoke` therefore skips the
deactivate attempt and the minting, but never the local clear. -/
def signOut (st : ClientState) (env : SignOutEnv) :
    SignOutTrace × ClientState :=
  if env.revokeThrows then
    ({ deactivateAttempted := false
       clearedLocalIdentity := true
       mintedNewSessionId := false },
     { st with currentDid := none })
  else
    ({ deactivateAttempted := true
       clearedLocalIdentity := true
       mintedNewSessionId := true },
     { st with currentDid := none, sessionId := env.freshSessionId })

/-! ## Helper lemmas about the string primitives -/

theorem dropWhile_eq_self_of {p : Char → Bool} {l : JStr}
    (h : ∀ c ∈ l, p c = false) : l.dropWhile p = l := by
  cases l with
  | nil => rfl
  | cons c rest =>
    rw [List.dropWhile_cons, if_neg]
    simp [h c (List.mem_cons_self c rest)]

theorem jsTrim_eq_self {l : JStr} (h : ∀ c ∈ l, jsWs c = false) :
    jsTrim l = l := by
  unfold jsTrim
  rw [dropWhile_eq_self_of h,
    dropWhile_eq_self_of fun c hc => h c (List.mem_reverse.mp hc),
    List.reverse_reverse]

theorem map_eq_self_of {f : Char → Char} : ∀ {l : JStr},
    (∀ c ∈ l, f c = c) → l.map f = l
  | [], _ => rfl
  | c :: rest, h => by
    simp only [List.map_cons]
    rw [h c (List.mem_cons_self c rest),
      map_eq_self_of fun d hd => h d (List.mem_cons_of_mem c hd)]

theorem toNat_charOfNat_of_le {n : Nat} (h1 : 97 ≤ n) (h2 : n ≤ 122) :
    (Char.ofNat n).toNat = n := by
  unfold Char.ofNat
  have hv : n.isValidChar := Or.inl (by omega)
  rw [dif_pos hv]
  unfold Char.ofNatAux
  simp [Char.toNat, UInt32.toNat]

theorem asciiToLower_eq_self {c : Char}
    (h : ¬(65 ≤ c.toNat ∧ c.toNat ≤ 90)) : asciiToLower c = c := by
  unfold asciiToLower
  rw [if_neg h]

theorem asciiToLower_not_upper (c : Char) :
    ¬(65 ≤ (asciiToLower c).toNat ∧ (asciiToLower c).toNat ≤ 90) := by
  unfold asciiToLower
  split
  · next h => rw [toNat_charOfNat_of_le (by omega) (by omega)]; omega
  · next h => exact h

theorem asciiToLower_idem (c : Char) :
    asciiToLower (asciiToLower c) = asciiToLower c :=
  asciiToLower_eq_self (asciiToLower_not_upper c)

theorem map_asciiToLower_self {z : JStr} :
    (z.map asciiToLower).map asciiToLower = z.map asciiToLower :=
  map_eq_self_of fun c hc => by
    obtain ⟨d, _, rfl⟩ := List.mem_map.mp hc
    exact asciiToLower_idem d

theorem not_ws_of_not_mem {c : Char} (h : c ∉ wsChars) : jsWs c = false := by
  simp [jsWs, h]

theorem didChar_not_ws {c : Char} (h : didChar c = true) : jsWs c = false := by
  apply not_ws_of_not_mem
  intro hm
  have h2 : ∀ x ∈ wsChars, didChar x = false := by decide
  rw [h2 c hm] at h
  cases h

theorem handleChar_not_ws {c : Char} (h : handleChar c = true) :
    jsWs c = false := by
  apply not_ws_of_not_mem
  intro hm
  have h2 : ∀ x ∈ wsChars, handleChar x = false := by decide
  rw [h2 c hm] at h
  cases h

theorem tokenChar_not_ws {c : Char} (h : tokenChar c = true) :
    jsWs c = false := by
  apply not_ws_of_not_mem
  intro hm
  have h2 : ∀ x ∈ wsChars, tokenChar x = false := by decide
  rw [h2 c hm] at h
  cases h

theorem didPattern_not_ws {l : JStr} (h : didPattern l = true) :
    ∀ c ∈ l, jsWs c = false := by
  unfold didPattern at h
  simp only [Bool.and_eq_true, Bool.or_eq_true] at h
  obtain ⟨⟨hpre, _⟩, hall⟩ := h
  rw [List.all_eq_true] at hall
  intro c hc
  rcases hpre with hp | hp
  all_goals {
    obtain ⟨t, ht⟩ := List.isPrefixOf_iff_prefix.mp hp
    have hdrop : l.drop 8 = t := by
      rw [← ht]
      rfl
    rw [← ht] at hc
    rcases List.mem_append.mp hc with h1 | h2
    · revert h1
      have : ∀ x ∈ ("did:plc:".data ++ "did:web:".data), jsWs x = false := by
        decide
      intro h1
      exact this c (by first
        | exact List.mem_append_left _ h1
        | exact List.mem_append_right _ h1)
    · exact didChar_not_ws (hall c (hdrop ▸ h2)) }

theorem handlePattern_not_ws {l : JStr} (h : handlePattern l = true) :
    ∀ c ∈ l, jsWs c = false := by
  unfold handlePattern at h
  simp only [Bool.and_eq_true] at h
  rw [List.all_eq_true] at h
  exact fun c hc => handleChar_not_ws (h.2 c hc)

theorem sessPattern_not_ws {l : JStr} (h : sessPattern l = true) :
    ∀ c ∈ l, jsWs c = false := by
  unfold sessPattern at h
  simp only [Bool.and_eq_true] at h
  obtain ⟨⟨hpre, _⟩, hall⟩ := h
  rw [List.all_eq_true] at hall
  intro c hc
  obtain ⟨t, ht⟩ := List.isPrefixOf_iff_prefix.mp hpre
  have hdrop : l.drop 5 = t := by
    rw [← ht]
    rfl
  rw [← ht] at hc
  rcases List.mem_append.mp hc with h1 | h2
  · revert h1
    have : ∀ x ∈ "sess_".data, jsWs x = false := by decide
    exact this c
  · exact tokenChar_not_ws (hall c (hdrop ▸ h2))

theorem devPattern_not_ws {l : JStr} (h : devPattern l = true) :
    ∀ c ∈ l, jsWs c = false := by
  unfold devPattern at h
  simp only [Bool.and_eq_true] at h
  obtain ⟨⟨hpre, _⟩, hall⟩ := h
  rw [List.all_eq_true] at hall
  intro c hc
  obtain ⟨t, ht⟩ := List.isPrefixOf_iff_prefix.mp hpre
  have hdrop : l.drop 4 = t := by
    rw [← ht]
    rfl
  rw [← ht] at hc
  rcases List.mem_append.mp hc with h1 | h2
  · revert h1
    have : ∀ x ∈ "dev_".data, jsWs x = false := by decide
    exact this c
  · exact tokenChar_not_ws (hall c (hdrop ▸ h2))

/-! ## Inversion lemmas for the sanitizers -/

theorem sanitizeDid_eq_some {x y : JStr} :
    sanitizeDid x = some y ↔
      y = (jsTrim x).map asciiToLower ∧ didPattern y = true ∧
        y.length ≤ 500 := by
  unfold sanitizeDid
  dsimp only
  split_ifs with h1 h2
  · simp only [Bool.not_eq_true'] at h1
    constructor
    · intro h
      cases h
    · rintro ⟨rfl, hp, _⟩
      rw [hp] at h1
      cases h1
  · constructor
    · intro h
      cases h
    · rintro ⟨rfl, _, hlen⟩
      omega
  · simp only [Bool.not_eq_true', Bool.not_eq_false] at h1
    constructor
    · rintro ⟨rfl⟩
      exact ⟨rfl, h1, by omega⟩
    · rintro ⟨rfl, _, _⟩
      rfl

theorem sanitizeHandle_eq_some {x y : JStr} :
    sanitizeHandle x = some y ↔
      y = (jsTrim x).map asciiToLower ∧ handlePattern y = true ∧
        1 ≤ y.length ∧ y.length ≤ 253 := by
  unfold sanitizeHandle
  dsimp only
  split_ifs with h1 h2
  · simp only [Bool.not_eq_true'] at h1
    constructor
    · intro h
      cases h
    · rintro ⟨rfl, hp, _⟩
      rw [hp] at h1
      cases h1
  · simp only [Bool.or_eq_true, beq_iff_eq, decide_eq_true_eq] at h2
    constructor
    · intro h
      cases h
    · rintro ⟨rfl, _, hlen1, hlen2⟩
      omega
  · simp only [Bool.not_eq_true', Bool.not_eq_false] at h1
    simp only [Bool.or_eq_true, beq_iff_eq, decide_eq_true_eq, not_or] at h2
    constructor
    · rintro ⟨rfl⟩
      exact ⟨rfl, h1, by omega, by omega⟩
    · rintro ⟨rfl, _, _⟩
      rfl

theorem sanitizeSessionId_eq_some {x y : JStr} :
    sanitizeSessionId x = some y ↔
      y = jsTrim x ∧ sessPattern y = true ∧ y.length ≤ 128 := by
  unfold sanitizeSessionId
  dsimp only
  split_ifs with h1 h2
  · simp only [Bool.not_eq_true'] at h1
    constructor
    · intro h
      cases h
    · rintro ⟨rfl, hp, _⟩
      rw [hp] at h1
      cases h1
  · constructor
    · intro h
      cases h
    · rintro ⟨rfl, _, hlen⟩
      omega
  · simp only [Bool.not_eq_true', Bool.not_eq_false] at h1
    constructor
    · rintro ⟨rfl⟩
      exact ⟨rfl, h1, by omega⟩
    · rintro ⟨rfl, _, _⟩
      rfl

theorem sanitizeDeviceId_eq_some {x y : JStr} :
    sanitizeDeviceId x = some y ↔
      y = jsTrim x ∧ devPattern y = true ∧ y.length ≤ 128 := by
  unfold sanitizeDeviceId
  dsimp only
  split_ifs with h1 h2
  · simp only [Bool.not_eq_true'] at h1
    constructor
    · intro h
      cases h
    · rintro ⟨rfl, hp, _⟩
      rw [hp] at h1
      cases h1
  · constructor
    · intro h
      cases h
    · rintro ⟨rfl, _, hlen⟩
      omega
  · simp only [Bool.not_eq_true', Bool.not_eq_false] at h1
    constructor
    · rintro ⟨rfl⟩
      exact ⟨rfl, h1, by omega⟩
    · rintro ⟨rfl, _, _⟩
      rfl

theorem sanitizeDid_idem {x y : JStr} (h : sanitizeDid x = some y) :
    sanitizeDid y = some y := by
  obtain ⟨hy, hp, hlen⟩ := sanitizeDid_eq_some.mp h
  apply sanitizeDid_eq_some.mpr
  refine ⟨?_, hp, hlen⟩
  subst hy
  rw [jsTrim_eq_self (didPattern_not_ws hp), map_asciiToLower_self]

theorem sanitizeHandle_idem {x y : JStr} (h : sanitizeHandle x = some y) :
    sanitizeHandle y = some y := by
  obtain ⟨hy, hp, hlen1, hlen2⟩ := sanitizeHandle_eq_some.mp h
  apply sanitizeHandle_eq_some.mpr
  refine ⟨?_, hp, hlen1, hlen2⟩
  subst hy
  rw [jsTrim_eq_self (handlePattern_not_ws hp), map_asciiToLower_self]

theorem sanitizeSessionId_idem {x y : JStr} (h : sanitizeSessionId x = some y) :
    sanitizeSessionId y = some y := by
  obtain ⟨hy, hp, hlen⟩ := sanitizeSessionId_eq_some.mp h
  exact sanitizeSessionId_eq_some.mpr
    ⟨(jsTrim_eq_self (sessPattern_not_ws hp)).symm, hp, hlen⟩

theorem sanitizeDeviceId_idem {x y : JStr} (h : sanitizeDeviceId x = some y) :
    sanitizeDeviceId y = some y := by
  obtain ⟨hy, hp, hlen⟩ := sanitizeDeviceId_eq_some.mp h
  exact sanitizeDeviceId_eq_some.mpr
    ⟨(jsTrim_eq_self (devPattern_not_ws hp)).symm, hp, hlen⟩

theorem mem_collapseWsAux :
    ∀ (b : Bool) (l : JStr) (c : Char), c ∈ collapseWsAux b l →
      c = ' ' ∨ c ∈ l := by
  intro b l
  induction l generalizing b with
  | nil =>
    intro c h
    cases h
  | cons d rest ih =>
    intro c h
    unfold collapseWsAux at h
    by_cases hd : jsWs d = true
    · rw [if_pos hd] at h
      cases b with
      | true =>
        rw [if_pos rfl] at h
        rcases ih true c h with h' | h'
        · exact Or.inl h'
        · exact Or.inr (List.mem_cons_of_mem d h')
      | false =>
        simp only [Bool.false_eq_true, if_false] at h
        rcases List.mem_cons.mp h with h' | h'
        · exact Or.inl h'
        · rcases ih true c h' with h'' | h''
          · exact Or.inl h''
          · exact Or.inr (List.mem_cons_of_mem d h'')
    · rw [if_neg hd] at h
      rcases List.mem_cons.mp h with h' | h'
      · exact Or.inr (h' ▸ List.mem_cons_self d rest)
      · rcases ih false c h' with h'' | h''
        · exact Or.inl h''
        · exact Or.inr (List.mem_cons_of_mem d h'')

theorem sanitizeText_len (x : JStr) : (sanitizeText x).length ≤ 10000 := by
  unfold sanitizeText
  rw [List.length_take]
  exact min_le_left _ _

theorem sanitizeText_no_ctrl (x : JStr) :
    ∀ c ∈ sanitizeText x, removedCtrl c = false := by
  intro c hc
  unfold sanitizeText at hc
  have hc1 := List.take_subset _ _ hc
  rcases mem_collapseWsAux false _ c hc1 with rfl | hc2
  · rfl
  · have h2 := (List.mem_filter.mp hc2).2
    simpa using h2

/-! ## Claim theorems: the sanitizers (C6, C7) -/

/-- C6, counterexample: the claimed idempotence `sanitize (sanitize x) =
sanitize x` fails for `sanitizeText` at the input `"\x00 a"` — removing the
NUL exposes a leading space that only a second pass trims
(`"\x00 a" ↦ " a" ↦ "a"`). -/
theorem sanitizeText_not_idempotent :
    sanitizeText (sanitizeText ("\x00 a".data)) ≠
      sanitizeText ("\x00 a".data) := by decide

/-- C6 (amended): every sanitizer's output is a rejection or satisfies that
sanitizer's format/length contract, and `sanitizeDid`, `sanitizeHandle`,
`sanitizeSessionId` and `sanitizeDeviceId` are idempotent on accepted
inputs; `sanitizeText` guarantees the length bound and control-character
removal but is not idempotent, and `sanitizeUrl`'s output is constrained
relative to the host URL parser. -/
theorem sanitizers_contract_and_idempotence :
    (∀ x : JStr, (sanitizeText x).length ≤ 10000 ∧
      ∀ c ∈ sanitizeText x, removedCtrl c = false) ∧
    (∀ x y : JStr, sanitizeDid x = some y →
      didPattern y = true ∧ y.length ≤ 500 ∧ sanitizeDid y = some y) ∧
    (∀ x y : JStr, sanitizeHandle x = some y →
      handlePattern y = true ∧ 1 ≤ y.length ∧ y.length ≤ 253 ∧
        sanitizeHandle y = some y) ∧
    (∀ x y : JStr, sanitizeSessionId x = some y →
      sessPattern y = true ∧ y.length ≤ 128 ∧
        sanitizeSessionId y = some y) ∧
    (∀ x y : JStr, sanitizeDeviceId x = some y →
      devPattern y = true ∧ y.length ≤ 128 ∧
        sanitizeDeviceId y = some y) ∧
    (∀ (p : JStr → Option JsUrl) (x y : JStr), sanitizeUrl p x = some y →
      ∃ u, p x = some u ∧
        (u.protocol = "http:".data ∨ u.protocol = "https:".data) ∧
        1 ≤ u.hostname.length ∧ u.hostname.length ≤ 253 ∧ y = u.href) := by
  refine ⟨fun x => ⟨sanitizeText_len x, sanitizeText_no_ctrl x⟩,
    ?_, ?_, ?_, ?_, ?_⟩
  · intro x y h
    obtain ⟨_, hp, hlen⟩ := sanitizeDid_eq_some.mp h
    exact ⟨hp, hlen, sanitizeDid_idem h⟩
  · intro x y h
    obtain ⟨_, hp, hlen1, hlen2⟩ := sanitizeHandle_eq_some.mp h
    exact ⟨hp, hlen1, hlen2, sanitizeHandle_idem h⟩
  · intro x y h
    obtain ⟨_, hp, hlen⟩ := sanitizeSessionId_eq_some.mp h
    exact ⟨hp, hlen, sanitizeSessionId_idem h⟩
  · intro x y h
    obtain ⟨_, hp, hlen⟩ := sanitizeDeviceId_eq_some.mp h
    exact ⟨hp, hlen, sanitizeDeviceId_idem h⟩
  · intro p x y h
    unfold sanitizeUrl at h
    cases hp : p x with
    | none =>
      rw [hp] at h
      cases h
    | some u =>
      rw [hp] at h
      dsimp only at h
      by_cases h1 :
          (!(u.protocol == "http:".data || u.protocol == "https:".data))
            = true
      · rw [if_pos h1] at h
        cases h
      · rw [if_neg h1] at h
        by_cases h2 :
            (u.hostname.length == 0 || decide (u.hostname.length > 253))
              = true
        · rw [if_pos h2] at h
          cases h
        · rw [if_neg h2] at h
          cases h
          simp only [Bool.not_eq_true', Bool.not_eq_false, Bool.or_eq_true,
            beq_iff_eq] at h1
          simp only [Bool.or_eq_true, beq_iff_eq, decide_eq_true_eq,
            not_or] at h2
          exact ⟨u, rfl, h1, by omega, by omega, rfl⟩

/-- C6, witness: concrete accepted inputs for each conjunct of the amended
contract/idempotence theorem. -/
theorem sanitizers_contract_and_idempotence_witness :
    ((sanitizeText ("hi".data)).length ≤ 10000 ∧
      ∀ c ∈ sanitizeText ("hi".data), removedCtrl c = false) ∧
    (didPattern ("did:plc:abc".data) = true ∧
      ("did:plc:abc".data).length ≤ 500 ∧
      sanitizeDid ("did:plc:abc".data) = some ("did:plc:abc".data)) ∧
    (handlePattern ("alice.example".data) = true ∧
      1 ≤ ("alice.example".data).length ∧
      ("alice.example".data).length ≤ 253 ∧
      sanitizeHandle ("alice.example".data) = some ("alice.example".data)) ∧
    (sessPattern ("sess_a1".data) = true ∧ ("sess_a1".data).length ≤ 128 ∧
      sanitizeSessionId ("sess_a1".data) = some ("sess_a1".data)) ∧
    (devPattern ("dev_a1".data) = true ∧ ("dev_a1".data).length ≤ 128 ∧
      sanitizeDeviceId ("dev_a1".data) = some ("dev_a1".data)) ∧
    (∃ u, (fun _ : JStr => some (JsUrl.mk "https:".data "a".data
        "https://a/".data)) ("https://a".data) = some u ∧
      (u.protocol = "http:".data ∨ u.protocol = "https:".data) ∧
      1 ≤ u.hostname.length ∧ u.hostname.length ≤ 253 ∧
      "https://a/".data = u.href) := by
  have h := sanitizers_contract_and_idempotence
  exact ⟨h.1 ("hi".data),
    h.2.1 ("did:plc:abc".data) ("did:plc:abc".data) (by decide),
    h.2.2.1 ("alice.example".data) ("alice.example".data) (by decide),
    h.2.2.2.1 ("sess_a1".data) ("sess_a1".data) (by decide),
    h.2.2.2.2.1 ("dev_a1".data) ("dev_a1".data) (by decide),
    h.2.2.2.2.2
      (fun _ : JStr => some (JsUrl.mk "https:".data "a".data
        "https://a/".data))
      ("https://a".data) ("https://a/".data) (by decide)⟩

/-- C7, counterexample: `sanitizeSessionId` does not lower-case its input —
`"sess_A"` is accepted verbatim, whereas the specified lower-casing
sanitizer would return `"sess_a"`. -/
theorem sanitizeSessionId_not_lowercasing :
    sanitizeSessionId ("sess_A".data) = some ("sess_A".data) ∧
    sanitizeSessionIdSpec ("sess_A".data) = some ("sess_a".data) ∧
    sanitizeSessionId ("sess_A".data) ≠
      sanitizeSessionIdSpec ("sess_A".data) := by decide

/-- C7 (amended): `sanitizeSessionId` and `sanitizeDeviceId` trim the input
(without lower-casing), then enforce the `sess_`/`dev_` prefixed
opaque-token regex and the maximum length 128; any mismatch yields `none`,
never a partially-sanitized value. -/
theorem sessionId_deviceId_sanitize_contract :
    ∀ x y : JStr,
      (sanitizeSessionId x = some y ↔
        y = jsTrim x ∧ sessPattern y = true ∧ y.length ≤ 128) ∧
      (sanitizeDeviceId x = some y ↔
        y = jsTrim x ∧ devPattern y = true ∧ y.length ≤ 128) :=
  fun _ _ => ⟨sanitizeSessionId_eq_some, sanitizeDeviceId_eq_some⟩

/-! ## Claim theorems: identifier generation (C9) -/

/-- C9: every value of `generateSessionId` is `"sess_"` followed by exactly
21 characters from the lowercase base36 alphabet `[0-9a-z]`, and every
value of `generateDeviceId` is `"dev_"` followed by exactly 21 such
characters. -/
theorem generated_ids_format :
    ∀ pick : Fin 21 → Fin idAlphabet.length,
      (∃ s, generateSessionId pick = "sess_".data ++ s ∧ s.length = 21 ∧
        ∀ c ∈ s, (c.isDigit || c.isLower) = true) ∧
      (∃ s, generateDeviceId pick = "dev_".data ++ s ∧ s.length = 21 ∧
        ∀ c ∈ s, (c.isDigit || c.isLower) = true) := by
  intro pick
  have halpha : ∀ i : Fin idAlphabet.length,
      ((idAlphabet.get i).isDigit || (idAlphabet.get i).isLower) = true := by
    decide
  have hlen : (nanoid pick).length = 21 := by
    unfold nanoid
    exact List.length_ofFn _
  have hall : ∀ c ∈ nanoid pick, (c.isDigit || c.isLower) = true := by
    intro c hc
    unfold nanoid at hc
    obtain ⟨i, hi⟩ := Set.mem_range.mp ((List.mem_ofFn _ _).mp hc)
    rw [← hi]
    exact halpha (pick i)
  exact ⟨⟨nanoid pick, rfl, hlen, hall⟩, ⟨nanoid pick, rfl, hlen, hall⟩⟩

/-! ## Claim theorems: the rate limiter (C2) -/

theorem storeGet_storeSet_self (s : RLStore) (k : String)
    (v : RateLimitEntry) : storeGet (storeSet s k v) k = some v := by
  induction s with
  | nil => simp [storeSet, storeGet]
  | cons kv rest ih =>
    obtain ⟨k', v'⟩ := kv
    by_cases hk : k' = k
    · subst hk
      simp [storeSet, storeGet]
    · simp [storeSet, storeGet, hk, ih]

theorem checkRun_cons (s : RLStore) (key : String) (N W t : Nat)
    (ts : List Nat) :
    checkRun s key N W (t :: ts) =
      ((rateLimiterCheck s key N W t).1 ::
        (checkRun (rateLimiterCheck s key N W t).2 key N W ts).1,
       (checkRun (rateLimiterCheck s key N W t).2 key N W ts).2) := rfl

theorem checkRun_append (s : RLStore) (key : String) (N W : Nat)
    (l1 l2 : List Nat) :
    checkRun s key N W (l1 ++ l2) =
      ((checkRun s key N W l1).1 ++
        (checkRun (checkRun s key N W l1).2 key N W l2).1,
       (checkRun (checkRun s key N W l1).2 key N W l2).2) := by
  induction l1 generalizing s with
  | nil => simp [checkRun]
  | cons t ts ih =>
    rw [List.cons_append, checkRun_cons, checkRun_cons, ih]
    rfl

theorem checkRun_length (s : RLStore) (key : String) (N W : Nat)
    (ts : List Nat) : (checkRun s key N W ts).1.length = ts.length := by
  induction ts generalizing s with
  | nil => simp [checkRun]
  | cons t ts ih =>
    rw [checkRun_cons]
    simp [ih]

/-- In-window allowed phase: from an entry with count `c` and reset time
`r`, a run of calls at times within the window, with `c + length ≤ limit`,
is entirely allowed and leaves the count at `c + length` with `r`
unchanged. -/
theorem checkRun_allowed_phase :
    ∀ (ts : List Nat) (s : RLStore) (key : String) (N W c r : Nat),
      storeGet s key = some ⟨c, r⟩ →
      (∀ t ∈ ts, t ≤ r) →
      c + ts.length ≤ N →
      (∀ res ∈ (checkRun s key N W ts).1, res.allowed = true) ∧
      storeGet (checkRun s key N W ts).2 key = some ⟨c + ts.length, r⟩ := by
  intro ts
  induction ts with
  | nil =>
    intro s key N W c r hget _ _
    exact ⟨by simp [checkRun], by simpa [checkRun] using hget⟩
  | cons t ts ih =>
    intro s key N W c r hget hts hle
    have ht : t ≤ r := hts t (List.mem_cons_self t ts)
    have hcN : c < N := by
      have := List.length_cons t ts
      omega
    have hcheck : rateLimiterCheck s key N W t =
        (⟨true, (N : Int) - (c + 1), r⟩, storeSet s key ⟨c + 1, r⟩) := by
      unfold rateLimiterCheck
      rw [hget]
      dsimp only
      rw [if_neg (by omega : ¬ t > r), if_neg (by omega : ¬ c ≥ N)]
    obtain ⟨ih1, ih2⟩ := ih (storeSet s key ⟨c + 1, r⟩) key N W (c + 1) r
      (storeGet_storeSet_self s key ⟨c + 1, r⟩)
      (fun t' ht' => hts t' (List.mem_cons_of_mem t ht'))
      (by simpa [Nat.add_assoc, Nat.add_comm 1 ts.length] using hle)
    rw [checkRun_cons, hcheck]
    constructor
    · intro res hres
      rcases List.mem_cons.mp hres with rfl | hres'
      · rfl
      · exact ih1 res hres'
    · rw [List.length_cons]
      have harith : c + 1 + ts.length = c + (ts.length + 1) := by omega
      rw [← harith]
      exact ih2

/-- C2: for every key, limit `N ≥ 1` and window `W`, among `N+1` calls to
`check` within one window the first `N` are allowed and the `(N+1)`-th is
denied with `remaining = 0` and the window's original `resetTime`; the
first call strictly after `resetTime` starts a fresh window with count 1
and is allowed. -/
theorem rateLimiter_window_behavior :
    ∀ (N W : Nat) (key : String) (s0 : RLStore) (t0 : Nat) (ts : List Nat)
      (tN tA : Nat),
      1 ≤ N →
      storeGet s0 key = none →
      ts.length = N - 1 →
      (∀ t ∈ ts, t ≤ t0 + W) →
      tN ≤ t0 + W →
      t0 + W < tA →
      ∃ rs : List CheckResult,
        (checkRun s0 key N W (t0 :: (ts ++ [tN]))).1
          = rs ++ [⟨false, 0, t0 + W⟩] ∧
        rs.length = N ∧
        (∀ res ∈ rs, res.allowed = true) ∧
        (rateLimiterCheck (checkRun s0 key N W (t0 :: (ts ++ [tN]))).2
            key N W tA).1 = ⟨true, (N : Int) - 1, tA + W⟩ ∧
        storeGet (rateLimiterCheck (checkRun s0 key N W (t0 :: (ts ++ [tN]))).2
            key N W tA).2 key = some ⟨1, tA + W⟩ := by
  intro N W key s0 t0 ts tN tA hN hget0 hlen hts htN htA
  have hfresh : rateLimiterCheck s0 key N W t0 =
      (⟨true, (N : Int) - 1, t0 + W⟩, storeSet s0 key ⟨1, t0 + W⟩) := by
    unfold rateLimiterCheck
    rw [hget0]
  obtain ⟨hphase1, hphase2⟩ := checkRun_allowed_phase ts
    (storeSet s0 key ⟨1, t0 + W⟩) key N W 1 (t0 + W)
    (storeGet_storeSet_self s0 key ⟨1, t0 + W⟩) hts (by omega)
  have hcount : 1 + ts.length = N := by omega
  rw [hcount] at hphase2
  have hlast : rateLimiterCheck
      (checkRun (storeSet s0 key ⟨1, t0 + W⟩) key N W ts).2 key N W tN =
      (⟨false, 0, t0 + W⟩,
        (checkRun (storeSet s0 key ⟨1, t0 + W⟩) key N W ts).2) := by
    unfold rateLimiterCheck
    rw [hphase2]
    dsimp only
    rw [if_neg (by omega : ¬ tN > t0 + W), if_pos (by omega : N ≥ N)]
  have hwhole : checkRun s0 key N W (t0 :: (ts ++ [tN])) =
      (⟨true, (N : Int) - 1, t0 + W⟩ ::
        ((checkRun (storeSet s0 key ⟨1, t0 + W⟩) key N W ts).1 ++
          [⟨false, 0, t0 + W⟩]),
       (checkRun (storeSet s0 key ⟨1, t0 + W⟩) key N W ts).2) := by
    rw [checkRun_cons, hfresh]
    dsimp only
    rw [checkRun_append]
    rw [checkRun_cons, hlast]
    dsimp only
    simp [checkRun]
  have hafter : rateLimiterCheck
      (checkRun (storeSet s0 key ⟨1, t0 + W⟩) key N W ts).2 key N W tA =
      (⟨true, (N : Int) - 1, tA + W⟩,
        storeSet (checkRun (storeSet s0 key ⟨1, t0 + W⟩) key N W ts).2
          key ⟨1, tA + W⟩) := by
    unfold rateLimiterCheck
    rw [hphase2]
    dsimp only
    rw [if_pos (by omega : tA > t0 + W)]
  refine ⟨⟨true, (N : Int) - 1, t0 + W⟩ ::
    (checkRun (storeSet s0 key ⟨1, t0 + W⟩) key N W ts).1, ?_, ?_, ?_, ?_, ?_⟩
  · rw [hwhole]
    rfl
  · rw [List.length_cons, checkRun_length]
    omega
  · intro res hres
    rcases List.mem_cons.mp hres with rfl | hres'
    · rfl
    · exact hphase1 res hres'
  · rw [hwhole]
    dsimp only
    rw [hafter]
  · rw [hwhole]
    dsimp only
    rw [hafter]
    exact storeGet_storeSet_self _ key ⟨1, tA + W⟩

/-- C2, witness: limit 2, window 10, calls at times 0, 1, 2 and then 11
from an empty store. -/
theorem rateLimiter_window_behavior_witness :
    ∃ rs : List CheckResult,
      (checkRun [] "k" 2 10 (0 :: ([1] ++ [2]))).1
        = rs ++ [⟨false, 0, 0 + 10⟩] ∧
      rs.length = 2 ∧
      (∀ res ∈ rs, res.allowed = true) ∧
      (rateLimiterCheck (checkRun [] "k" 2 10 (0 :: ([1] ++ [2]))).2
          "k" 2 10 11).1 = ⟨true, (2 : Int) - 1, 11 + 10⟩ ∧
      storeGet (rateLimiterCheck (checkRun [] "k" 2 10 (0 :: ([1] ++ [2]))).2
          "k" 2 10 11).2 "k" = some ⟨1, 11 + 10⟩ :=
  rateLimiter_window_behavior 2 10 "k" [] 0 [1] 2 11 (by decide) (by decide)
    (by decide) (by decide) (by decide) (by decide)

/-! ## Claim theorems: the synchronizer's upserts (C1) -/

theorem find?_append_of_none {α : Type} {p : α → Bool} {l₁ l₂ : List α}
    (h : l₁.find? p = none) : (l₁ ++ l₂).find? p = l₂.find? p := by
  induction l₁ with
  | nil => rfl
  | cons a l ih =>
    cases hpa : p a with
    | true =>
      simp only [List.find?, hpa] at h
      cases h
    | false =>
      simp only [List.find?, hpa] at h
      rw [List.cons_append]
      simp only [List.find?, hpa]
      exact ih h

theorem countP_map_of_pred_eq {α : Type} (f : α → α) (p : α → Bool) :
    ∀ l : List α, (∀ x ∈ l, p (f x) = p x) →
      (l.map f).countP p = l.countP p := by
  intro l
  induction l with
  | nil => intro _; rfl
  | cons a l ih =>
    intro h
    rw [List.map_cons, List.countP_cons, List.countP_cons,
      h a (List.mem_cons_self a l),
      ih fun x hx => h x (List.mem_cons_of_mem a hx)]

/-- C1: processing two sync requests that carry the same `(did, sessionId)`
pair but different handles leaves exactly one `users` row for the did and
one `user_sessions` row for the session id; the surviving user row carries
the second request's `handle` but the first request's `createdAt` and `id`,
and the surviving session row keeps the first request's `userId` ownership
and `deviceId` while taking the second request's `lastActiveAt` and
`metadata`. -/
theorem sync_upsert_same_pair_twice :
    ∀ (db : Db) (d1 d2 : SyncBody) (uid1 sid1 uid2 sid2 now1 now2 : Nat),
      d1.did = d2.did →
      d1.sessionId = d2.sessionId →
      db.users.countP (fun r => r.did == d1.did) = 0 →
      db.sessions.countP (fun r => r.sessionId == d1.sessionId) = 0 →
      (syncPersist (syncPersist db uid1 sid1 now1 d1) uid2 sid2 now2
          d2).users.countP (fun r => r.did == d1.did) = 1 ∧
      (syncPersist (syncPersist db uid1 sid1 now1 d1) uid2 sid2 now2
          d2).sessions.countP (fun r => r.sessionId == d1.sessionId) = 1 ∧
      (∃ u ∈ (syncPersist (syncPersist db uid1 sid1 now1 d1) uid2 sid2 now2
          d2).users, u.did = d1.did ∧ u.handle = d2.handle ∧
          u.createdAt = now1 ∧ u.id = uid1) ∧
      (∃ s ∈ (syncPersist (syncPersist db uid1 sid1 now1 d1) uid2 sid2 now2
          d2).sessions, s.sessionId = d1.sessionId ∧ s.userId = uid1 ∧
          s.deviceId = some d1.deviceId ∧ s.lastActiveAt = now2 ∧
          s.metadata = d2.metadata.getD ⟨none⟩) := by
  intro db d1 d2 uid1 sid1 uid2 sid2 now1 now2 hdid hsid husers0 hsessions0
  have hpu : (fun r : UserRow => r.did == d2.did)
      = (fun r : UserRow => r.did == d1.did) := by
    rw [hdid]
  have hps : (fun r : SessionRow => r.sessionId == d2.sessionId)
      = (fun r : SessionRow => r.sessionId == d1.sessionId) := by
    rw [hsid]
  have hufind : db.users.find? (fun r => r.did == d1.did) = none :=
    List.find?_eq_none.mpr fun x hx => by
      simpa using List.countP_eq_zero.mp husers0 x hx
  have hsfind : db.sessions.find? (fun r => r.sessionId == d1.sessionId)
      = none :=
    List.find?_eq_none.mpr fun x hx => by
      simpa using List.countP_eq_zero.mp hsessions0 x hx
  have hu1 : upsertUser db.users uid1 now1 d1
      = (db.users ++ [newUserRow uid1 now1 d1], newUserRow uid1 now1 d1) := by
    unfold upsertUser
    have : (fun r : UserRow => r.did == d1.did)
        = (fun r : UserRow => r.did == d1.did) := rfl
    rw [hufind]
  have hs1 : upsertSession db.sessions sid1 now1 uid1 d1
      = db.sessions ++ [newSessionRow sid1 now1 uid1 d1] := by
    unfold upsertSession
    rw [hsfind]
  have hdb1 : syncPersist db uid1 sid1 now1 d1
      = ⟨db.users ++ [newUserRow uid1 now1 d1],
         db.sessions ++ [newSessionRow sid1 now1 uid1 d1]⟩ := by
    unfold syncPersist
    rw [hu1]
    dsimp only
    rw [show (newUserRow uid1 now1 d1).id = uid1 from rfl, hs1]
  rw [hdb1]
  -- the second request hits the conflict branches
  have hufind2 : (db.users ++ [newUserRow uid1 now1 d1]).find?
      (fun r => r.did == d2.did) = some (newUserRow uid1 now1 d1) := by
    rw [hpu, find?_append_of_none hufind]
    simp [List.find?, newUserRow]
  have hsfind2 : (db.sessions ++ [newSessionRow sid1 now1 uid1 d1]).find?
      (fun r => r.sessionId == d2.sessionId)
      = some (newSessionRow sid1 now1 uid1 d1) := by
    rw [hps, find?_append_of_none hsfind]
    simp [List.find?, newSessionRow]
  have hu2 : upsertUser (db.users ++ [newUserRow uid1 now1 d1]) uid2 now2 d2
      = ((db.users ++ [newUserRow uid1 now1 d1]).map fun r' =>
          if r'.did == d2.did then updateUserRow now2 d2 r' else r',
         updateUserRow now2 d2 (newUserRow uid1 now1 d1)) := by
    unfold upsertUser
    rw [hufind2]
  have hs2 : upsertSession (db.sessions ++ [newSessionRow sid1 now1 uid1 d1])
      sid2 now2 (updateUserRow now2 d2 (newUserRow uid1 now1 d1)).id d2
      = (db.sessions ++ [newSessionRow sid1 now1 uid1 d1]).map fun r =>
          if r.sessionId == d2.sessionId then
            { r with lastActiveAt := now2, metadata := d2.metadata.getD ⟨none⟩ }
          else r := by
    unfold upsertSession
    rw [hsfind2]
  have hdb2 : syncPersist
      ⟨db.users ++ [newUserRow uid1 now1 d1],
       db.sessions ++ [newSessionRow sid1 now1 uid1 d1]⟩ uid2 sid2 now2 d2
      = ⟨(db.users ++ [newUserRow uid1 now1 d1]).map fun r' =>
          if r'.did == d2.did then updateUserRow now2 d2 r' else r',
         (db.sessions ++ [newSessionRow sid1 now1 uid1 d1]).map fun r =>
          if r.sessionId == d2.sessionId then
            { r with lastActiveAt := now2, metadata := d2.metadata.getD ⟨none⟩ }
          else r⟩ := by
    unfold syncPersist
    rw [hu2]
    dsimp only
    rw [hs2]
  rw [hdb2]
  refine ⟨?_, ?_, ?_, ?_⟩
  · rw [countP_map_of_pred_eq _ _ _ fun x _ => ?_]
    · rw [List.countP_append, husers0]
      simp [List.countP_cons, newUserRow]
    · by_cases hx : (x.did == d2.did) = true
      · rw [if_pos hx]
        simp only [updateUserRow]
      · rw [if_neg hx]
  · rw [countP_map_of_pred_eq _ _ _ fun x _ => ?_]
    · rw [List.countP_append, hsessions0]
      simp [List.countP_cons, newSessionRow]
    · by_cases hx : (x.sessionId == d2.sessionId) = true
      · rw [if_pos hx]
      · rw [if_neg hx]
  · refine ⟨updateUserRow now2 d2 (newUserRow uid1 now1 d1), ?_, ?_, rfl,
      rfl, rfl⟩
    · have hmem : newUserRow uid1 now1 d1
          ∈ db.users ++ [newUserRow uid1 now1 d1] :=
        List.mem_append_right _ (List.mem_singleton.mpr rfl)
      have hmm := List.mem_map_of_mem (fun r' : UserRow =>
        if r'.did == d2.did then updateUserRow now2 d2 r' else r') hmem
      dsimp only at hmm
      rw [if_pos (by simp [newUserRow, hdid] : ((newUserRow uid1 now1
        d1).did == d2.did) = true)] at hmm
      exact hmm
    · simp [updateUserRow, newUserRow]
  · refine ⟨{ newSessionRow sid1 now1 uid1 d1 with
      lastActiveAt := now2, metadata := d2.metadata.getD ⟨none⟩ }, ?_, ?_,
      rfl, rfl, rfl, rfl⟩
    · have hmem : newSessionRow sid1 now1 uid1 d1
          ∈ db.sessions ++ [newSessionRow sid1 now1 uid1 d1] :=
        List.mem_append_right _ (List.mem_singleton.mpr rfl)
      have hmm := List.mem_map_of_mem (fun r : SessionRow =>
        if r.sessionId == d2.sessionId then
          { r with lastActiveAt := now2, metadata := d2.metadata.getD ⟨none⟩ }
        else r) hmem
      dsimp only at hmm
      rw [if_pos (by simp [newSessionRow, hsid] : ((newSessionRow sid1 now1
        uid1 d1).sessionId == d2.sessionId) = true)] at hmm
      exact hmm
    · simp [newSessionRow]

/-- C1, witness: two concrete sync requests for
`(did:plc:abc, sess_x)` with handles `h1` then `h2`, against an empty
database. -/
theorem sync_upsert_same_pair_twice_witness :
    (syncPersist (syncPersist ⟨[], []⟩ 1 2 100
        ⟨"did:plc:abc".data, "h1".data, none, none, none, none,
          "sess_x".data, "dev_x".data, none⟩) 3 4 200
        ⟨"did:plc:abc".data, "h2".data, none, none, none, none,
          "sess_x".data, "dev_x".data, none⟩).users.countP
      (fun r => r.did == "did:plc:abc".data) = 1 ∧
    (syncPersist (syncPersist ⟨[], []⟩ 1 2 100
        ⟨"did:plc:abc".data, "h1".data, none, none, none, none,
          "sess_x".data, "dev_x".data, none⟩) 3 4 200
        ⟨"did:plc:abc".data, "h2".data, none, none, none, none,
          "sess_x".data, "dev_x".data, none⟩).sessions.countP
      (fun r => r.sessionId == "sess_x".data) = 1 ∧
    (∃ u ∈ (syncPersist (syncPersist ⟨[], []⟩ 1 2 100
        ⟨"did:plc:abc".data, "h1".data, none, none, none, none,
          "sess_x".data, "dev_x".data, none⟩) 3 4 200
        ⟨"did:plc:abc".data, "h2".data, none, none, none, none,
          "sess_x".data, "dev_x".data, none⟩).users,
      u.did = "did:plc:abc".data ∧ u.handle = "h2".data ∧
        u.createdAt = 100 ∧ u.id = 1) ∧
    (∃ s ∈ (syncPersist (syncPersist ⟨[], []⟩ 1 2 100
        ⟨"did:plc:abc".data, "h1".data, none, none, none, none,
          "sess_x".data, "dev_x".data, none⟩) 3 4 200
        ⟨"did:plc:abc".data, "h2".data, none, none, none, none,
          "sess_x".data, "dev_x".data, none⟩).sessions,
      s.sessionId = "sess_x".data ∧ s.userId = 1 ∧
        s.deviceId = some ("dev_x".data) ∧ s.lastActiveAt = 200 ∧
        s.metadata = (none : Option SessionMetadata).getD ⟨none⟩) :=
  sync_upsert_same_pair_twice ⟨[], []⟩
    ⟨"did:plc:abc".data, "h1".data, none, none, none, none,
      "sess_x".data, "dev_x".data, none⟩
    ⟨"did:plc:abc".data, "h2".data, none, none, none, none,
      "sess_x".data, "dev_x".data, none⟩
    1 2 3 4 100 200 rfl rfl (by decide) (by decide)

/-! ## Claim theorems: session-id validation at the endpoints (C3) -/

/-- C3, counterexample: the basic sync route's schema types `sessionId` as
a bare `z.string()`, so the non-conforming id `"x"` passes validation and a
`user_sessions` row with `session_id = "x"` is written; likewise the
deactivation endpoint's schema performs no format check, so `"x"` reaches
the database update and deactivates an existing row. -/
theorem nonconforming_sessionId_reaches_persistence :
    sessPattern ("x".data) = false ∧
    (syncRoutePOST ⟨[], []⟩ (some ⟨"did:plc:abc".data, "h".data, none, none,
        none, none, "x".data, "dev_1".data, none⟩) 1 2 100).2.sessions.countP
      (fun r => r.sessionId == "x".data) = 1 ∧
    (deactivatePOST ⟨[], [⟨5, 1, "x".data, none, 0, none, ⟨none⟩, true, 0,
        none⟩]⟩ (some ("x".data)) 50).1 = DeactivateResponse.ok ∧
    (deactivatePOST ⟨[], [⟨5, 1, "x".data, none, 0, none, ⟨none⟩, true, 0,
        none⟩]⟩ (some ("x".data)) 50).2.sessions
      = [⟨5, 1, "x".data, none, 0, none, ⟨none⟩, false, 0, some 50⟩] := by
  decide

/-- C3 (amended): only the activity endpoint enforces the full session-id
pattern `^sess_[a-zA-Z0-9_-]+$` before persistence.  The hardened sync
route rejects, before persistence, every `sessionId` that fails its own
weaker check — length in `[1, 128]`, charset `[a-zA-Z0-9_-]`, and a
`startsWith("sess_")` test — but that check is strictly weaker than the
pattern: the single value `"sess_"` (empty suffix) passes it and is
persisted although it fails the pattern.  The basic sync route's schema
and the deactivation endpoint's schema validate `sessionId` as a bare
`z.string()`, so any string value reaches the database. -/
theorem sessionId_validation_by_endpoint :
    (∀ (db : Db) (ct : Bool) (b : ActivityBody) (now : Nat),
      sessPattern b.sessionId = false →
      (activityPOST db ct (some b) now).2 = db ∧
      ((activityPOST db ct (some b) now).1
          = ActivityResponse.invalidContentType ∨
        (activityPOST db ct (some b) now).1
          = ActivityResponse.invalidRequestData)) ∧
    (∀ (urlOk : JStr → Bool) (store : RLStore) (ip : String) (ct : Bool)
        (db : Db) (b : SyncBody) (u s now : Nat),
      ¬(1 ≤ b.sessionId.length ∧ b.sessionId.length ≤ 128 ∧
        b.sessionId.all tokenChar = true ∧
        "sess_".data.isPrefixOf b.sessionId = true) →
      (hardenedSyncPOST urlOk store ip ct db (some b) u s now).2.2 = db) ∧
    (sessPattern ("sess_".data) = false ∧
      (hardenedSyncPOST (fun _ => true) [] "ip" true ⟨[], []⟩
        (some ⟨"did:plc:abc".data, "h".data, none, none, none, none,
          "sess_".data, "dev_1".data, none⟩) 1 2 100).2.2.sessions.countP
        (fun r => r.sessionId == "sess_".data) = 1) ∧
    (∀ (db : Db) (b : SyncBody) (u s now : Nat),
      ∃ r ∈ (syncRoutePOST db (some b) u s now).2.sessions,
        r.sessionId = b.sessionId) ∧
    (∀ (db : Db) (sid : JStr) (now : Nat),
      (deactivatePOST db (some sid) now).1 = DeactivateResponse.ok ∨
      (deactivatePOST db (some sid) now).1 = DeactivateResponse.notFound) := by
  refine ⟨?_, ?_, ⟨by decide, by decide⟩, ?_, ?_⟩
  · intro db ct b now hpat
    cases ct with
    | false => exact ⟨rfl, Or.inl rfl⟩
    | true =>
      refine ⟨?_, Or.inr ?_⟩ <;> simp [activityPOST, hpat]
  · intro urlOk store ip ct db b u s now hbad
    unfold hardenedSyncPOST
    dsimp only
    split_ifs with h1 h2 h3 h4
    · rfl
    · rfl
    · rfl
    · rfl
    · exfalso
      simp only [Bool.not_eq_true', Bool.not_eq_false] at h3 h4
      simp only [hardenedSyncValidate, Bool.and_eq_true,
        decide_eq_true_eq] at h3
      exact hbad ⟨by tauto, by tauto, by tauto, h4⟩
  · intro db b u s now
    unfold syncRoutePOST syncPersist
    dsimp only
    unfold upsertSession
    cases hf : db.sessions.find? (fun r => r.sessionId == b.sessionId) with
    | none =>
      refine ⟨newSessionRow s now (upsertUser db.users u now b).2.id b,
        List.mem_append_right _ (List.mem_singleton.mpr rfl), rfl⟩
    | some r0 =>
      have hr0 := List.find?_some hf
      have hr0' : (r0.sessionId == b.sessionId) = true := hr0
      have hmem := List.mem_map_of_mem (fun r : SessionRow =>
        if r.sessionId == b.sessionId then
          { r with lastActiveAt := now, metadata := b.metadata.getD ⟨none⟩ }
        else r) (List.mem_of_find?_eq_some hf)
      dsimp only at hmem
      rw [if_pos hr0'] at hmem
      exact ⟨_, hmem, by simpa using hr0'⟩
  · intro db sid now
    unfold deactivatePOST
    dsimp only
    cases hf : db.sessions.find? (fun r => r.sessionId == sid) with
    | none => exact Or.inr rfl
    | some r0 => exact Or.inl rfl

/-- C3, witness: a pattern-violating activity request, a hardened sync
request whose session id carries the prefix but violates the charset
(`"sess_!"`), an accepted basic-sync request, and a deactivation request
with a non-conforming id. -/
theorem sessionId_validation_by_endpoint_witness :
    ((activityPOST ⟨[], []⟩ true (some ⟨"x".data, 7⟩) 0).2 = ⟨[], []⟩ ∧
      ((activityPOST ⟨[], []⟩ true (some ⟨"x".data, 7⟩) 0).1
          = ActivityResponse.invalidContentType ∨
        (activityPOST ⟨[], []⟩ true (some ⟨"x".data, 7⟩) 0).1
          = ActivityResponse.invalidRequestData)) ∧
    (hardenedSyncPOST (fun _ => true) [] "ip" true ⟨[], []⟩
      (some ⟨"did:plc:abc".data, "h".data, none, none, none, none,
        "sess_!".data, "dev_1".data, none⟩) 1 2 100).2.2 = ⟨[], []⟩ ∧
    (∃ r ∈ (syncRoutePOST ⟨[], []⟩
        (some ⟨"did:plc:abc".data, "h".data, none, none, none, none,
          "x".data, "dev_1".data, none⟩) 1 2 100).2.sessions,
      r.sessionId = "x".data) ∧
    ((deactivatePOST ⟨[], []⟩ (some ("x".data)) 0).1
        = DeactivateResponse.ok ∨
      (deactivatePOST ⟨[], []⟩ (some ("x".data)) 0).1
        = DeactivateResponse.notFound) :=
  ⟨sessionId_validation_by_endpoint.1 ⟨[], []⟩ true ⟨"x".data, 7⟩ 0
      (by decide),
    sessionId_validation_by_endpoint.2.1 (fun _ => true) [] "ip" true
      ⟨[], []⟩ ⟨"did:plc:abc".data, "h".data, none, none, none, none,
        "sess_!".data, "dev_1".data, none⟩ 1 2 100 (by decide),
    sessionId_validation_by_endpoint.2.2.2.1 ⟨[], []⟩
      ⟨"did:plc:abc".data, "h".data, none, none, none, none,
        "x".data, "dev_1".data, none⟩ 1 2 100,
    sessionId_validation_by_endpoint.2.2.2.2 ⟨[], []⟩ ("x".data) 0⟩

/-! ## Claim theorems: the orchestrator (C4, C5, C10) -/

/-- C4: `handleCallback` returns `null` (not a thrown exception) whenever
the code exchange yields no session; when it yields a session but the
round-tripped `state` fails to parse, it still returns an authenticated
`EnhancedSession` whose `sessionId` is the freshly generated id. -/
theorem handleCallback_no_session_and_bad_state :
    (∀ (st : ClientState) (env : CallbackEnv), env.initResult = none →
      handleCallback st env = (none, st)) ∧
    (∀ (st : ClientState) (env : CallbackEnv) (sess : OAuthSessionM)
        (stateStr : JStr),
      env.initResult = some (sess, some stateStr) →
      env.parseAuthState stateStr = none →
      ∃ es, (handleCallback st env).1 = some es ∧
        es.sessionId = env.freshSessionId ∧ es.sub = sess.sub) := by
  constructor
  · intro st env h
    unfold handleCallback
    rw [h]
  · intro st env sess stateStr hinit hparse
    unfold handleCallback
    rw [hinit]
    dsimp only [Option.bind]
    rw [hparse]
    exact ⟨_, rfl, rfl, rfl⟩

/-- C4, witness: a callback with no session, and one with a session whose
`state` does not parse. -/
theorem handleCallback_no_session_and_bad_state_witness :
    handleCallback ⟨"s".data, "d".data, none⟩
      ⟨none, fun _ => none, none, "sess_f".data⟩
      = (none, ⟨"s".data, "d".data, none⟩) ∧
    ∃ es, (handleCallback ⟨"s".data, "d".data, none⟩
      ⟨some (⟨"did:plc:a".data, none, none⟩, some ("not json".data)),
        fun _ => none, none, "sess_f".data⟩).1 = some es ∧
      es.sessionId = "sess_f".data ∧ es.sub = "did:plc:a".data :=
  ⟨handleCallback_no_session_and_bad_state.1 _ _ rfl,
    handleCallback_no_session_and_bad_state.2
      ⟨"s".data, "d".data, none⟩
      ⟨some (⟨"did:plc:a".data, none, none⟩, some ("not json".data)),
        fun _ => none, none, "sess_f".data⟩
      ⟨"did:plc:a".data, none, none⟩ ("not json".data) rfl rfl⟩

/-- C5, counterexample: in a `signOut` run where the provider-side revoke
throws, the deactivation request is never attempted and no replacement
session id is minted (the claim asserts both always happen); only the
local-identity clear is performed. -/
theorem signOut_revoke_throw_skips_deactivate_and_mint :
    (signOut ⟨"sess_1".data, "dev_1".data, some ("did:plc:a".data)⟩
      ⟨true, false, "sess_2".data⟩).1.deactivateAttempted = false ∧
    (signOut ⟨"sess_1".data, "dev_1".data, some ("did:plc:a".data)⟩
      ⟨true, false, "sess_2".data⟩).1.mintedNewSessionId = false ∧
    (signOut ⟨"sess_1".data, "dev_1".data, some ("did:plc:a".data)⟩
      ⟨true, false, "sess_2".data⟩).2.sessionId = "sess_1".data ∧
    "sess_1".data ≠ "sess_2".data := by
  decide

/-- C5 (amended): every `signOut` run clears the locally remembered
identity, whatever fails; a deactivate-request failure (caught inside
`deactivateSession`) prevents nothing; but when the provider revoke
throws, the deactivation attempt is skipped and no replacement session id
is minted — the replacement id is minted exactly on the runs where revoke
does not throw. -/
theorem signOut_effects :
    ∀ (st : ClientState) (env : SignOutEnv),
      ((signOut st env).2.currentDid = none ∧
        (signOut st env).1.clearedLocalIdentity = true) ∧
      (env.revokeThrows = false →
        (signOut st env).1.deactivateAttempted = true ∧
        (signOut st env).1.mintedNewSessionId = true ∧
        (signOut st env).2.sessionId = env.freshSessionId) ∧
      (env.revokeThrows = true →
        (signOut st env).1.deactivateAttempted = false ∧
        (signOut st env).1.mintedNewSessionId = false ∧
        (signOut st env).2.sessionId = st.sessionId) := by
  intro st env
  unfold signOut
  cases h : env.revokeThrows <;> simp

/-- C5, witness: one run where revoke succeeds and one where it throws,
with a deactivate-request failure in both. -/
theorem signOut_effects_witness :
    ((signOut ⟨"sess_1".data, "dev_1".data, some ("did:plc:a".data)⟩
        ⟨false, true, "sess_2".data⟩).2.currentDid = none ∧
      (signOut ⟨"sess_1".data, "dev_1".data, some ("did:plc:a".data)⟩
        ⟨false, true, "sess_2".data⟩).1.clearedLocalIdentity = true) ∧
    ((signOut ⟨"sess_1".data, "dev_1".data, some ("did:plc:a".data)⟩
        ⟨false, true, "sess_2".data⟩).1.deactivateAttempted = true ∧
      (signOut ⟨"sess_1".data, "dev_1".data, some ("did:plc:a".data)⟩
        ⟨false, true, "sess_2".data⟩).1.mintedNewSessionId = true ∧
      (signOut ⟨"sess_1".data, "dev_1".data, some ("did:plc:a".data)⟩
        ⟨false, true, "sess_2".data⟩).2.sessionId = "sess_2".data) ∧
    ((signOut ⟨"sess_1".data, "dev_1".data, some ("did:plc:a".data)⟩
        ⟨true, true, "sess_2".data⟩).1.deactivateAttempted = false ∧
      (signOut ⟨"sess_1".data, "dev_1".data, some ("did:plc:a".data)⟩
        ⟨true, true, "sess_2".data⟩).1.mintedNewSessionId = false ∧
      (signOut ⟨"sess_1".data, "dev_1".data, some ("did:plc:a".data)⟩
        ⟨true, true, "sess_2".data⟩).2.sessionId = "sess_1".data) :=
  ⟨(signOut_effects ⟨"sess_1".data, "dev_1".data, some ("did:plc:a".data)⟩
      ⟨false, true, "sess_2".data⟩).1,
    (signOut_effects ⟨"sess_1".data, "dev_1".data, some ("did:plc:a".data)⟩
      ⟨false, true, "sess_2".data⟩).2.1 rfl,
    (signOut_effects ⟨"sess_1".data, "dev_1".data, some ("did:plc:a".data)⟩
      ⟨true, true, "sess_2".data⟩).2.2 rfl⟩

/-- C10: in every `EnhancedSession` returned by `handleCallback` or
`restoreSession`, `handle` equals the fetched profile's `displayName` when
the best-effort profile fetch succeeded with a `displayName`, and otherwise
equals the session's subject DID `sub` — it is a function of the profile
result and `sub` only, never of the provider session's account handle. -/
theorem enhanced_session_handle_source :
    (∀ (st : ClientState) (env : CallbackEnv) (sess : OAuthSessionM)
        (stateOpt : Option JStr) (es : EnhancedSessionM),
      env.initResult = some (sess, stateOpt) →
      (handleCallback st env).1 = some es →
      es.handle = (match env.profileResult with
        | some m => m.displayName.getD sess.sub
        | none => sess.sub)) ∧
    (∀ (st : ClientState) (env : RestoreEnv) (sess : OAuthSessionM)
        (es : EnhancedSessionM),
      env.restoreResult = some sess →
      (restoreSession st env).1 = some es →
      es.handle = (match env.profileResult with
        | some m => m.displayName.getD sess.sub
        | none => sess.sub)) := by
  constructor
  · intro st env sess stateOpt es hinit hes
    unfold handleCallback at hes
    rw [hinit] at hes
    dsimp only at hes
    cases hes
    cases env.profileResult with
    | none => rfl
    | some m => rfl
  · intro st env sess es hres hes
    unfold restoreSession at hes
    rw [hres] at hes
    dsimp only at hes
    cases hes
    cases env.profileResult with
    | none => rfl
    | some m => rfl

/-- C10, witness: a callback and a restore, one with a successful profile
fetch carrying a `displayName` and one with a failed fetch. -/
theorem enhanced_session_handle_source_witness :
    (∃ es, (handleCallback ⟨"s".data, "d".data, none⟩
        ⟨some (⟨"did:plc:a".data, none, some ("real.handle".data)⟩, none),
          fun _ => none, some ⟨some ("Nice Name".data), none, none⟩,
          "sess_f".data⟩).1 = some es ∧
      es.handle = "Nice Name".data) ∧
    (∃ es, (restoreSession ⟨"sess_1".data, "d".data, none⟩
        ⟨some ⟨"did:plc:a".data, none, some ("real.handle".data)⟩, none,
          "sess_f".data⟩).1 = some es ∧
      es.handle = "did:plc:a".data) := by
  constructor
  · refine ⟨_, rfl, ?_⟩
    exact enhanced_session_handle_source.1 ⟨"s".data, "d".data, none⟩
      ⟨some (⟨"did:plc:a".data, none, some ("real.handle".data)⟩, none),
        fun _ => none, some ⟨some ("Nice Name".data), none, none⟩,
        "sess_f".data⟩
      ⟨"did:plc:a".data, none, some ("real.handle".data)⟩ none _ rfl rfl
  · refine ⟨_, rfl, ?_⟩
    exact enhanced_session_handle_source.2 ⟨"sess_1".data, "d".data, none⟩
      ⟨some ⟨"did:plc:a".data, none, some ("real.handle".data)⟩, none,
        "sess_f".data⟩
      ⟨"did:plc:a".data, none, some ("real.handle".data)⟩ _ rfl rfl

/-! ## Claim theorems: unknown sessions at the tracker endpoints (C8) -/

/-- C8: an activity request whose `sessionId` matches no stored session
returns the success-with-warning response (never an error) with the
database untouched, and a deactivation request whose `sessionId` matches
no record returns the not-found response, a constructor distinct from the
server-error one; in neither case is the caller's flow broken. -/
theorem unknown_session_activity_and_deactivate :
    ∀ (db : Db) (sid : JStr) (ts now : Nat),
      db.sessions.countP (fun r => r.sessionId == sid) = 0 →
      1 ≤ sid.length → sid.length ≤ 128 → sessPattern sid = true →
      activityPOST db true (some ⟨sid, ts⟩) now
        = (ActivityResponse.okWarning, db) ∧
      deactivatePOST db (some sid) now = (DeactivateResponse.notFound, db) ∧
      DeactivateResponse.notFound ≠ DeactivateResponse.serverError := by
  intro db sid ts now h0 h1 h2 h3
  have hfind : db.sessions.find? (fun r => r.sessionId == sid) = none :=
    List.find?_eq_none.mpr fun x hx => by
      simpa using List.countP_eq_zero.mp h0 x hx
  refine ⟨?_, ?_, by intro h; cases h⟩
  · unfold activityPOST
    rw [if_neg (by decide : ¬((!true) = true))]
    dsimp only
    rw [if_neg (by simp [h1, h2, h3]), hfind]
  · unfold deactivatePOST
    dsimp only
    rw [hfind]

/-- C8, witness: the session id `sess_a` against an empty database. -/
theorem unknown_session_activity_and_deactivate_witness :
    activityPOST ⟨[], []⟩ true (some ⟨"sess_a".data, 7⟩) 3
      = (ActivityResponse.okWarning, ⟨[], []⟩) ∧
    deactivatePOST ⟨[], []⟩ (some ("sess_a".data)) 3
      = (DeactivateResponse.notFound, ⟨[], []⟩) ∧
    DeactivateResponse.notFound ≠ DeactivateResponse.serverError :=
  unknown_session_activity_and_deactivate ⟨[], []⟩ ("sess_a".data) 7 3
    (by decide) (by decide) (by decide) (by decide)

end Nymeria
